import Mathlib

/-!
Verification of the NutriPlan energy-budget calculator and meal-plan
consistency engine, embedded shallowly from the TypeScript source.
JavaScript numbers are modelled as rationals; `Math.round` is modelled
exactly (`⌊x + 1/2⌋`).
-/

namespace NutriPlan

/-- JavaScript `Math.round`: round half up, i.e. `⌊x + 1/2⌋`. -/
def jsRound (q : ℚ) : ℤ := ⌊q + 1/2⌋

/-- Enum `ActivityLevel` from `types.ts`. -/
inductive ActivityLevel where
  | sedentary | light | moderate | active | veryActive
deriving DecidableEq, Repr

/-- Enum `Gender` from `types.ts`. -/
inductive Gender where
  | male | female | other
deriving DecidableEq, Repr

/-- Values of the `planGoal` field (maintenance or deficit in `types.ts`; no surplus goal exists). -/
inductive PlanGoal where
  | maintenance | deficit
deriving DecidableEq, Repr

/-- Structure `UserFormData` from `types.ts`.  Numeric fields are rationals
(JS numbers); derived fields are optional as in the source. -/
structure UserFormData where
  age : ℚ
  gender : Gender
  height : ℚ
  weight : ℚ
  activityLevel : ActivityLevel
  dietaryPreference : String
  allergies : String
  mealsPerDay : ℚ
  cuisinePreference : String
  duration : ℚ
  calculatedBMR : Option ℚ := none
  calculatedTDEE : Option ℚ := none
  targetCaloriesField : Option ℚ := none
  planGoal : PlanGoal
  includeSnacks : Bool
  snacksPerDay : ℚ
deriving DecidableEq, Repr

/-- BMR from `InputForm.tsx` (lines 31-37, Mifflin-St Jeor).  The source
guards `if (!weight || !height || !age) return 0;` — for number inputs the
falsy case is the value `0`. -/
def bmr (f : UserFormData) : ℚ :=
  if f.weight = 0 ∨ f.height = 0 ∨ f.age = 0 then 0
  else
    let base := 10 * f.weight + 6.25 * f.height - 5 * f.age
    if f.gender = Gender.male then base + 5 else base - 161

/-- Activity multipliers from `InputForm.tsx` (lines 41-47). -/
def activityMultiplier : ActivityLevel → ℚ
  | ActivityLevel.sedentary => 1.2
  | ActivityLevel.light => 1.375
  | ActivityLevel.moderate => 1.55
  | ActivityLevel.active => 1.725
  | ActivityLevel.veryActive => 1.9

/-- TDEE from `InputForm.tsx` (line 48): `Math.round(bmr * multiplier)`. -/
def tdee (f : UserFormData) : ℤ :=
  jsRound (bmr f * activityMultiplier f.activityLevel)

/-- Target calories from `InputForm.tsx` (lines 52-58):
deficit goal takes `tdee - 500` when that exceeds `bmr`, otherwise
`Math.max(1200, Math.round(tdee * 0.85))`; maintenance takes `tdee`. -/
def targetCalories (f : UserFormData) : ℤ :=
  match f.planGoal with
  | PlanGoal.deficit =>
      let deficit := tdee f - 500
      if (deficit : ℚ) > bmr f then deficit
      else max 1200 (jsRound ((tdee f : ℚ) * 0.85))
  | PlanGoal.maintenance => tdee f

/-- The default profile of the form (`InputForm.tsx` lines 12-28),
which is also concrete scenario 1 of the spec. -/
def scenarioProfile : UserFormData :=
  { age := 30, gender := Gender.female, height := 170, weight := 70,
    activityLevel := ActivityLevel.moderate, dietaryPreference := "Normal",
    allergies := "", mealsPerDay := 3,
    cuisinePreference := "Southeast Asian Fusion", duration := 3,
    planGoal := PlanGoal.maintenance, includeSnacks := true,
    snacksPerDay := 2 }

/-- The default profile with the weight-loss goal selected. -/
def scenarioDeficit : UserFormData :=
  { scenarioProfile with planGoal := PlanGoal.deficit }

/-- The default profile, sedentary, weight-loss goal (safety-floor branch). -/
def sedentaryDeficit : UserFormData :=
  { scenarioProfile with activityLevel := ActivityLevel.sedentary,
                         planGoal := PlanGoal.deficit }

/-- A form-accepted profile (female, 60 years, 150 cm, 50 kg, moderate
activity, weight-loss goal) whose candidate deficit exceeds BMR yet lands
below 1200 kcal. -/
def lowTdeeProfile : UserFormData :=
  { scenarioProfile with age := 60, height := 150, weight := 50,
                         planGoal := PlanGoal.deficit }

/-- The default profile with weight set to zero (falsy input). -/
def zeroWeightProfile : UserFormData :=
  { scenarioProfile with weight := 0 }

/-- The zero-weight profile with the weight-loss goal. -/
def zeroWeightDeficit : UserFormData :=
  { zeroWeightProfile with planGoal := PlanGoal.deficit }

lemma targetCalories_deficit (f : UserFormData)
    (h : f.planGoal = PlanGoal.deficit) :
    targetCalories f =
      if ((tdee f - 500 : ℤ) : ℚ) > bmr f then tdee f - 500
      else max 1200 (jsRound ((tdee f : ℚ) * 0.85)) := by
  unfold targetCalories
  rw [h]

lemma targetCalories_maintenance (f : UserFormData)
    (h : f.planGoal = PlanGoal.maintenance) :
    targetCalories f = tdee f := by
  unfold targetCalories
  rw [h]

lemma bmr_scenario : bmr scenarioProfile = 1451.5 := by
  norm_num [bmr, scenarioProfile]
  decide

lemma tdee_scenario : tdee scenarioProfile = 2250 := by
  rw [tdee, bmr_scenario, jsRound]
  norm_num [scenarioProfile, activityMultiplier, Int.floor_eq_iff]

lemma target_scenario : targetCalories scenarioProfile = 2250 := tdee_scenario

lemma bmr_scenarioDeficit : bmr scenarioDeficit = 1451.5 := bmr_scenario

lemma tdee_scenarioDeficit : tdee scenarioDeficit = 2250 := tdee_scenario

lemma bmr_sedentaryDeficit : bmr sedentaryDeficit = 1451.5 := bmr_scenario

lemma tdee_sedentaryDeficit : tdee sedentaryDeficit = 1742 := by
  rw [tdee, bmr_sedentaryDeficit, jsRound]
  norm_num [sedentaryDeficit, scenarioProfile, activityMultiplier,
    Int.floor_eq_iff]

lemma bmr_lowTdee : bmr lowTdeeProfile = 976.5 := by
  norm_num [bmr, lowTdeeProfile, scenarioProfile]
  decide

lemma tdee_lowTdee : tdee lowTdeeProfile = 1514 := by
  rw [tdee, bmr_lowTdee, jsRound]
  norm_num [lowTdeeProfile, scenarioProfile, activityMultiplier,
    Int.floor_eq_iff]

lemma target_lowTdee : targetCalories lowTdeeProfile = 1014 := by
  rw [targetCalories_deficit lowTdeeProfile rfl, tdee_lowTdee, bmr_lowTdee]
  norm_num

/-- C1 counterexample: the profile female / age 60 / height 150 cm /
weight 50 kg / moderate activity, goal = deficit, is accepted by the form
(all fields within the form bounds) yet its targetCalories is 1014 < 1200:
the candidate `tdee − 500 = 1014` exceeds `bmr = 976.5`, so the 1200 floor
is never applied. -/
theorem C1_counterexample :
    lowTdeeProfile.planGoal = PlanGoal.deficit ∧
    15 ≤ lowTdeeProfile.age ∧ lowTdeeProfile.age ≤ 100 ∧
    100 ≤ lowTdeeProfile.height ∧ lowTdeeProfile.height ≤ 250 ∧
    30 ≤ lowTdeeProfile.weight ∧ lowTdeeProfile.weight ≤ 300 ∧
    targetCalories lowTdeeProfile < 1200 := by
  refine ⟨rfl, ?_, ?_, ?_, ?_, ?_, ?_, by rw [target_lowTdee]; norm_num⟩ <;>
    norm_num [lowTdeeProfile, scenarioProfile]

/-- C1 (amended): for every profile with goal = deficit whose candidate
`tdee − 500` does not exceed `bmr`, the computed targetCalories is at
least 1200 (the safety floor applies only on that branch). -/
theorem C1_targetCalories_floor (f : UserFormData)
    (h1 : f.planGoal = PlanGoal.deficit)
    (h2 : ((tdee f - 500 : ℤ) : ℚ) ≤ bmr f) :
    1200 ≤ targetCalories f := by
  rw [targetCalories_deficit f h1, if_neg (not_lt.mpr h2)]
  exact le_max_left _ _

/-- C1 witness: the sedentary default profile with goal = deficit has
candidate 1242 ≤ bmr 1451.5, and its target 1481 is at least 1200. -/
theorem C1_witness : 1200 ≤ targetCalories sedentaryDeficit := by
  apply C1_targetCalories_floor sedentaryDeficit rfl
  rw [tdee_sedentaryDeficit, bmr_sedentaryDeficit]
  norm_num

/-- C5: for every profile with positive age, height and weight, BMR follows
Mifflin-St Jeor with +5 for male and −161 otherwise (female and other share
the female offset), TDEE is the rounded product of BMR with the fixed
activity multipliers, and the concrete scenario (age 30, female, 170 cm,
70 kg, moderate) gives BMR 1451.5, TDEE 2250, maintenance target 2250. -/
theorem C5_energy_model (f : UserFormData)
    (ha : 0 < f.age) (hh : 0 < f.height) (hw : 0 < f.weight) :
    bmr f = (10 * f.weight + 6.25 * f.height - 5 * f.age) +
      (if f.gender = Gender.male then 5 else -161) ∧
    tdee f = jsRound (bmr f * activityMultiplier f.activityLevel) ∧
    activityMultiplier ActivityLevel.sedentary = 1.2 ∧
    activityMultiplier ActivityLevel.light = 1.375 ∧
    activityMultiplier ActivityLevel.moderate = 1.55 ∧
    activityMultiplier ActivityLevel.active = 1.725 ∧
    activityMultiplier ActivityLevel.veryActive = 1.9 ∧
    bmr scenarioProfile = 1451.5 ∧ tdee scenarioProfile = 2250 ∧
    targetCalories scenarioProfile = 2250 := by
  refine ⟨?_, rfl, rfl, rfl, rfl, rfl, rfl, bmr_scenario, tdee_scenario,
    target_scenario⟩
  rw [bmr, if_neg (by push_neg; exact ⟨ne_of_gt hw, ne_of_gt hh, ne_of_gt ha⟩)]
  by_cases hg : f.gender = Gender.male
  · simp only [hg, if_pos]
  · rw [if_neg hg, if_neg hg]
    ring

/-- C5 witness: the scenario profile has positive inputs and satisfies the
stated BMR/TDEE/target values. -/
theorem C5_witness :
    bmr scenarioProfile = 1451.5 ∧ tdee scenarioProfile = 2250 ∧
    targetCalories scenarioProfile = 2250 := by
  have h := C5_energy_model scenarioProfile (by norm_num [scenarioProfile])
    (by norm_num [scenarioProfile]) (by norm_num [scenarioProfile])
  exact ⟨h.2.2.2.2.2.2.2.1, h.2.2.2.2.2.2.2.2.1, h.2.2.2.2.2.2.2.2.2⟩

/-- C6: for every profile with goal = deficit whose candidate `tdee − 500`
strictly exceeds `bmr`, targetCalories equals `tdee − 500` (already an
integer, so equal to its own round). -/
theorem C6_deficit_candidate (f : UserFormData)
    (h1 : f.planGoal = PlanGoal.deficit)
    (h2 : bmr f < ((tdee f - 500 : ℤ) : ℚ)) :
    targetCalories f = tdee f - 500 := by
  rw [targetCalories_deficit f h1, if_pos h2]

/-- C6 witness: the default profile with goal = deficit has candidate
1750 > bmr 1451.5 and target exactly 2250 − 500 = 1750. -/
theorem C6_witness : targetCalories scenarioDeficit = 1750 := by
  have h := C6_deficit_candidate scenarioDeficit rfl
    (by rw [tdee_scenarioDeficit, bmr_scenarioDeficit]; norm_num)
  rw [h, tdee_scenarioDeficit]
  norm_num

/-- C10: when weight, height or age is zero (the falsy guard in the
source), BMR is 0 without evaluating the formula, TDEE is 0, the
maintenance target is 0, and the deficit target is exactly 1200. -/
theorem C10_falsy_inputs (f : UserFormData)
    (h : f.weight = 0 ∨ f.height = 0 ∨ f.age = 0) :
    bmr f = 0 ∧ tdee f = 0 ∧
    (f.planGoal = PlanGoal.maintenance → targetCalories f = 0) ∧
    (f.planGoal = PlanGoal.deficit → targetCalories f = 1200) := by
  have hb : bmr f = 0 := by rw [bmr, if_pos h]
  have ht : tdee f = 0 := by
    rw [tdee, hb, jsRound]
    norm_num
  refine ⟨hb, ht, fun hm => ?_, fun hd => ?_⟩
  · rw [targetCalories_maintenance f hm, ht]
  · rw [targetCalories_deficit f hd, ht, hb, if_neg (by norm_num), jsRound]
    norm_num

/-- C10 witness: weight 0 gives BMR 0, TDEE 0, maintenance target 0 and
deficit target 1200. -/
theorem C10_witness :
    bmr zeroWeightProfile = 0 ∧ tdee zeroWeightProfile = 0 ∧
    targetCalories zeroWeightProfile = 0 ∧
    targetCalories zeroWeightDeficit = 1200 := by
  have h1 := C10_falsy_inputs zeroWeightProfile (Or.inl rfl)
  have h2 := C10_falsy_inputs zeroWeightDeficit (Or.inl rfl)
  exact ⟨h1.1, h1.2.1, h1.2.2.1 rfl, h2.2.2.2 rfl⟩

/-! ## Plan data model (`types.ts`) -/

/-- Structure `MacroNutrients` from `types.ts`. -/
structure MacroNutrients where
  protein : ℚ
  carbs : ℚ
  fats : ℚ
deriving DecidableEq, Repr

/-- Structure `MealItem` from `types.ts`. -/
structure MealItem where
  name : String
  description : String
  calories : ℚ
  macros : MacroNutrients
  recipeTip : Option String := none
  ingredients : Option (List String) := none
  instructions : Option (List String) := none
deriving DecidableEq, Repr

/-- A meal group of a `DayPlan` (`{type, items}` in `types.ts`). -/
structure MealGroup where
  type : String
  items : List MealItem
deriving DecidableEq, Repr

/-- Structure `DayPlan` from `types.ts`. -/
structure DayPlan where
  day : String
  meals : List MealGroup
  totalCalories : ℚ
  dailyMacros : MacroNutrients
deriving DecidableEq, Repr

/-- A shopping-list category (`{category, items}` in `types.ts`). -/
structure ShoppingCategory where
  category : String
  items : List String
deriving DecidableEq, Repr

/-- Structure `NutritionPlanResponse` from `types.ts`. -/
structure NutritionPlanResponse where
  safeCalorieRange : String
  summary : String
  days : List DayPlan
  shoppingList : List ShoppingCategory
deriving DecidableEq, Repr

/-! ## Plan aggregator (`App.tsx` lines 92-112)

The source accumulates `newTotalCals`, `newProtein`, `newCarbs`, `newFats`
with nested `forEach` loops and rounds each accumulated total once at the
end.  `Totals` is the accumulator record of those four mutable locals. -/

/-- The four running totals of the swap handler. -/
structure Totals where
  cals : ℚ
  protein : ℚ
  carbs : ℚ
  fats : ℚ
deriving DecidableEq, Repr

/-- One iteration of the inner `forEach` in `App.tsx` lines 99-104. -/
def addItem (t : Totals) (item : MealItem) : Totals :=
  { cals := t.cals + item.calories,
    protein := t.protein + item.macros.protein,
    carbs := t.carbs + item.macros.carbs,
    fats := t.fats + item.macros.fats }

/-- The nested `forEach` accumulation over a day (`App.tsx` lines 98-105). -/
def accumDay (day : DayPlan) : Totals :=
  day.meals.foldl (fun t group => group.items.foldl addItem t) ⟨0, 0, 0, 0⟩

/-- Day-total recomputation from `App.tsx` lines 92-112: overwrite
`totalCalories` and `dailyMacros` with the rounded accumulated totals. -/
def recomputeDay (day : DayPlan) : DayPlan :=
  let t := accumDay day
  { day with
    totalCalories := (jsRound t.cals : ℚ),
    dailyMacros := { protein := (jsRound t.protein : ℚ),
                     carbs := (jsRound t.carbs : ℚ),
                     fats := (jsRound t.fats : ℚ) } }

/-- Calories of one meal group, as a plain sum (spec reading). -/
def groupCalories (g : MealGroup) : ℚ := (g.items.map MealItem.calories).sum

/-- Protein grams of one item. -/
def itemProtein (i : MealItem) : ℚ := i.macros.protein

/-- Carb grams of one item. -/
def itemCarbs (i : MealItem) : ℚ := i.macros.carbs

/-- Fat grams of one item. -/
def itemFats (i : MealItem) : ℚ := i.macros.fats

/-- Protein grams of one meal group. -/
def groupProtein (g : MealGroup) : ℚ := (g.items.map itemProtein).sum

/-- Carb grams of one meal group. -/
def groupCarbs (g : MealGroup) : ℚ := (g.items.map itemCarbs).sum

/-- Fat grams of one meal group. -/
def groupFats (g : MealGroup) : ℚ := (g.items.map itemFats).sum

/-- Sum of calories over all items of all meal groups of a day. -/
def sumCalories (day : DayPlan) : ℚ := (day.meals.map groupCalories).sum

/-- Sum of protein over all items of all meal groups of a day. -/
def sumProtein (day : DayPlan) : ℚ := (day.meals.map groupProtein).sum

/-- Sum of carbs over all items of all meal groups of a day. -/
def sumCarbs (day : DayPlan) : ℚ := (day.meals.map groupCarbs).sum

/-- Sum of fats over all items of all meal groups of a day. -/
def sumFats (day : DayPlan) : ℚ := (day.meals.map groupFats).sum

lemma foldl_addItem (items : List MealItem) (t : Totals) :
    items.foldl addItem t =
      ⟨t.cals + (items.map MealItem.calories).sum,
       t.protein + (items.map itemProtein).sum,
       t.carbs + (items.map itemCarbs).sum,
       t.fats + (items.map itemFats).sum⟩ := by
  induction items generalizing t with
  | nil => simp
  | cons i is ih =>
      simp only [List.foldl_cons, ih, List.map_cons, List.sum_cons, addItem,
        Totals.mk.injEq, itemProtein, itemCarbs, itemFats]
      refine ⟨by ring, by ring, by ring, by ring⟩

lemma foldl_groups (gs : List MealGroup) (t : Totals) :
    gs.foldl (fun t group => group.items.foldl addItem t) t =
      ⟨t.cals + (gs.map groupCalories).sum,
       t.protein + (gs.map groupProtein).sum,
       t.carbs + (gs.map groupCarbs).sum,
       t.fats + (gs.map groupFats).sum⟩ := by
  induction gs generalizing t with
  | nil => simp
  | cons g gs ih =>
      rw [List.foldl_cons, foldl_addItem, ih]
      simp only [List.map_cons, List.sum_cons, Totals.mk.injEq,
        groupCalories, groupProtein, groupCarbs, groupFats]
      and_intros <;> ring

lemma accumDay_eq (day : DayPlan) :
    accumDay day = ⟨sumCalories day, sumProtein day, sumCarbs day,
      sumFats day⟩ := by
  rw [accumDay, foldl_groups]
  simp [sumCalories, sumProtein, sumCarbs, sumFats]

lemma jsRound_zero : jsRound 0 = 0 := by norm_num [jsRound]

lemma recomputeDay_totalCalories (day : DayPlan) :
    (recomputeDay day).totalCalories = (jsRound (sumCalories day) : ℚ) := by
  rw [recomputeDay, accumDay_eq]

lemma recomputeDay_dailyMacros (day : DayPlan) :
    (recomputeDay day).dailyMacros =
      ⟨(jsRound (sumProtein day) : ℚ), (jsRound (sumCarbs day) : ℚ),
       (jsRound (sumFats day) : ℚ)⟩ := by
  rw [recomputeDay, accumDay_eq]

lemma recomputeDay_meals (day : DayPlan) :
    (recomputeDay day).meals = day.meals := rfl

lemma recomputeDay_day (day : DayPlan) :
    (recomputeDay day).day = day.day := rfl

/-- C2: the recomputation run by the swap handler sets `totalCalories` to
the round of the sum of item calories over all meal groups of the day, and
each `dailyMacros` field to the round of the corresponding item-macro sum;
each rounding is applied once to the accumulated total.  A day with zero
meal groups yields all-zero totals. -/
theorem C2_recompute_invariant (day : DayPlan) :
    (recomputeDay day).totalCalories = (jsRound (sumCalories day) : ℚ) ∧
    (recomputeDay day).dailyMacros.protein =
      (jsRound (sumProtein day) : ℚ) ∧
    (recomputeDay day).dailyMacros.carbs = (jsRound (sumCarbs day) : ℚ) ∧
    (recomputeDay day).dailyMacros.fats = (jsRound (sumFats day) : ℚ) ∧
    (day.meals = [] →
      (recomputeDay day).totalCalories = 0 ∧
      (recomputeDay day).dailyMacros = ⟨0, 0, 0⟩) := by
  refine ⟨recomputeDay_totalCalories day, ?_, ?_, ?_, fun hempty => ?_⟩
  · rw [recomputeDay_dailyMacros day]
  · rw [recomputeDay_dailyMacros day]
  · rw [recomputeDay_dailyMacros day]
  · constructor
    · rw [recomputeDay_totalCalories day, sumCalories, hempty]
      simp [jsRound_zero]
    · rw [recomputeDay_dailyMacros day, sumProtein, sumCarbs, sumFats,
        hempty]
      simp [jsRound_zero]

/-- A concrete day with no meal groups but stale nonzero totals. -/
def emptyDay : DayPlan :=
  { day := "Day 1", meals := [], totalCalories := 123,
    dailyMacros := ⟨10, 20, 30⟩ }

/-- C2 witness: recomputing a day with zero meal groups yields all-zero
totals (here from stale nonzero ones). -/
theorem C2_witness :
    (recomputeDay emptyDay).totalCalories = 0 ∧
    (recomputeDay emptyDay).dailyMacros = ⟨0, 0, 0⟩ :=
  (C2_recompute_invariant emptyDay).2.2.2.2 rfl

/-! ## Meal swap (`App.tsx` lines 78-118)

`handleSwapMeal` deep-copies the plan, overwrites the item at
`(dayIndex, mealGroupIndex, itemIndex)` with the replacement returned by
the Gateway, and recomputes the totals of the affected day.  In-place index
assignment on the copy is modelled with `modifyAt`. -/

/-- Replace the element at an index by applying a function (no-op when out
of range). -/
def modifyAt {α : Type} : List α → Nat → (α → α) → List α
  | [], _, _ => []
  | a :: l, 0, f => f a :: l
  | a :: l, n + 1, f => a :: modifyAt l n f

/-- Index assignment `l[i] = y` on an in-range index. -/
def replaceAt {α : Type} (l : List α) (i : Nat) (y : α) : List α :=
  modifyAt l i (fun _ => y)

lemma length_modifyAt {α : Type} (l : List α) (n : Nat) (f : α → α) :
    (modifyAt l n f).length = l.length := by
  induction l generalizing n with
  | nil => rfl
  | cons a l ih =>
      cases n with
      | zero => rfl
      | succ n => simp [modifyAt, ih]

lemma get_modifyAt_self {α : Type} (l : List α) (n : Nat) (f : α → α)
    (h : n < l.length) (h' : n < (modifyAt l n f).length) :
    (modifyAt l n f).get ⟨n, h'⟩ = f (l.get ⟨n, h⟩) := by
  induction l generalizing n with
  | nil => exact absurd h (by simp)
  | cons a l ih =>
      cases n with
      | zero => rfl
      | succ n => exact ih n (by simpa using h) (by simpa [modifyAt] using h')

lemma get_modifyAt_ne {α : Type} (l : List α) (n m : Nat) (f : α → α)
    (hm : m < l.length) (h' : m < (modifyAt l n f).length) (hne : m ≠ n) :
    (modifyAt l n f).get ⟨m, h'⟩ = l.get ⟨m, hm⟩ := by
  induction l generalizing n m with
  | nil => exact absurd hm (by simp)
  | cons a l ih =>
      cases n with
      | zero =>
          cases m with
          | zero => exact absurd rfl hne
          | succ m => rfl
      | succ n =>
          cases m with
          | zero => rfl
          | succ m =>
              exact ih n m (by simpa using hm)
                (by simpa [modifyAt] using h')
                (fun h => hne (by rw [h]))

lemma sum_map_modifyAt {α : Type} (l : List α) (n : Nat) (g : α → α)
    (f : α → ℚ) (h : n < l.length) :
    ((modifyAt l n g).map f).sum =
      (l.map f).sum - f (l.get ⟨n, h⟩) + f (g (l.get ⟨n, h⟩)) := by
  induction l generalizing n with
  | nil => exact absurd h (by simp)
  | cons a l ih =>
      cases n with
      | zero => simp [modifyAt]; ring
      | succ n =>
          have hn : n < l.length := by simpa using h
          simp [modifyAt, ih n hn]
          ring

/-- Overwriting the item at `(g, i)` inside a day
(`App.tsx` line 90, restricted to the affected day). -/
def swapItem (day : DayPlan) (g i : Nat) (y : MealItem) : DayPlan :=
  { day with
    meals := modifyAt day.meals g
      (fun grp => { grp with items := replaceAt grp.items i y }) }

/-- The successful swap path of `handleSwapMeal` (`App.tsx` lines 89-112):
replace the item at `(d, g, i)` in a copy of the plan and recompute the
totals of day `d`; all other fields are carried over. -/
def swapAndRecompute (plan : NutritionPlanResponse) (d g i : Nat)
    (y : MealItem) : NutritionPlanResponse :=
  { plan with
    days := modifyAt plan.days d (fun day => recomputeDay (swapItem day g i y)) }

lemma daySum_swapItem (fI : MealItem → ℚ) (day : DayPlan) (g i : Nat)
    (y : MealItem) (hg : g < day.meals.length)
    (hi : i < (day.meals.get ⟨g, hg⟩).items.length) :
    ((swapItem day g i y).meals.map (fun grp => (grp.items.map fI).sum)).sum =
      (day.meals.map (fun grp => (grp.items.map fI).sum)).sum -
        fI ((day.meals.get ⟨g, hg⟩).items.get ⟨i, hi⟩) + fI y := by
  rw [swapItem]
  rw [sum_map_modifyAt _ g _ _ hg]
  rw [show ({ (day.meals.get ⟨g, hg⟩) with
      items := replaceAt (day.meals.get ⟨g, hg⟩).items i y } : MealGroup).items
      = replaceAt (day.meals.get ⟨g, hg⟩).items i y from rfl]
  rw [replaceAt, sum_map_modifyAt _ i _ _ hi]
  ring

lemma sumCalories_swapItem (day : DayPlan) (g i : Nat) (y : MealItem)
    (hg : g < day.meals.length)
    (hi : i < (day.meals.get ⟨g, hg⟩).items.length) :
    sumCalories (swapItem day g i y) =
      sumCalories day +
        (y.calories - ((day.meals.get ⟨g, hg⟩).items.get ⟨i, hi⟩).calories) := by
  have hfold : groupCalories =
      fun grp => (grp.items.map MealItem.calories).sum := rfl
  simp only [sumCalories]
  rw [hfold, daySum_swapItem MealItem.calories day g i y hg hi]
  ring

lemma sumProtein_swapItem (day : DayPlan) (g i : Nat) (y : MealItem)
    (hg : g < day.meals.length)
    (hi : i < (day.meals.get ⟨g, hg⟩).items.length) :
    sumProtein (swapItem day g i y) =
      sumProtein day + (y.macros.protein -
        ((day.meals.get ⟨g, hg⟩).items.get ⟨i, hi⟩).macros.protein) := by
  have hfold : groupProtein = fun grp => (grp.items.map itemProtein).sum := rfl
  simp only [sumProtein]
  rw [hfold, daySum_swapItem itemProtein day g i y hg hi]
  simp only [itemProtein]
  ring

lemma sumCarbs_swapItem (day : DayPlan) (g i : Nat) (y : MealItem)
    (hg : g < day.meals.length)
    (hi : i < (day.meals.get ⟨g, hg⟩).items.length) :
    sumCarbs (swapItem day g i y) =
      sumCarbs day + (y.macros.carbs -
        ((day.meals.get ⟨g, hg⟩).items.get ⟨i, hi⟩).macros.carbs) := by
  have hfold : groupCarbs = fun grp => (grp.items.map itemCarbs).sum := rfl
  simp only [sumCarbs]
  rw [hfold, daySum_swapItem itemCarbs day g i y hg hi]
  simp only [itemCarbs]
  ring

lemma sumFats_swapItem (day : DayPlan) (g i : Nat) (y : MealItem)
    (hg : g < day.meals.length)
    (hi : i < (day.meals.get ⟨g, hg⟩).items.length) :
    sumFats (swapItem day g i y) =
      sumFats day + (y.macros.fats -
        ((day.meals.get ⟨g, hg⟩).items.get ⟨i, hi⟩).macros.fats) := by
  have hfold : groupFats = fun grp => (grp.items.map itemFats).sum := rfl
  simp only [sumFats]
  rw [hfold, daySum_swapItem itemFats day g i y hg hi]
  simp only [itemFats]
  ring

/-- Independent rounding moves a difference of rounded values away from the
exact delta by strictly less than one unit. -/
lemma jsRound_delta (s δ : ℚ) :
    |((jsRound (s + δ) : ℚ) - (jsRound s : ℚ)) - δ| ≤ 1 := by
  rw [jsRound, jsRound, abs_le]
  have h1 := Int.floor_le (s + δ + 1/2)
  have h2 := Int.sub_one_lt_floor (s + δ + 1/2)
  have h3 := Int.floor_le (s + 1/2)
  have h4 := Int.sub_one_lt_floor (s + 1/2)
  constructor <;> linarith

lemma jsRound_intCast (n : ℤ) : jsRound (n : ℚ) = n := by
  rw [jsRound, Int.floor_eq_iff]
  constructor <;> norm_num

/-- C4: replacing the item `x` at in-range indices `(d, g, i)` with `y` and
recomputing day `d` changes `totalCalories` by `y.calories − x.calories`
and each `dailyMacros` field by the corresponding macro delta, each within
±1 because the pre- and post-swap totals are rounded independently.  The
pre-swap day is assumed to satisfy the aggregate invariant (its stored
totals are the rounds of its item sums). -/
theorem C4_swap_delta (plan : NutritionPlanResponse) (d g i : Nat)
    (x y : MealItem)
    (hd : d < plan.days.length)
    (hg : g < (plan.days.get ⟨d, hd⟩).meals.length)
    (hi : i < ((plan.days.get ⟨d, hd⟩).meals.get ⟨g, hg⟩).items.length)
    (hx : ((plan.days.get ⟨d, hd⟩).meals.get ⟨g, hg⟩).items.get ⟨i, hi⟩ = x)
    (hd' : d < (swapAndRecompute plan d g i y).days.length)
    (hcal : (plan.days.get ⟨d, hd⟩).totalCalories =
      (jsRound (sumCalories (plan.days.get ⟨d, hd⟩)) : ℚ))
    (hpro : (plan.days.get ⟨d, hd⟩).dailyMacros.protein =
      (jsRound (sumProtein (plan.days.get ⟨d, hd⟩)) : ℚ))
    (hcarb : (plan.days.get ⟨d, hd⟩).dailyMacros.carbs =
      (jsRound (sumCarbs (plan.days.get ⟨d, hd⟩)) : ℚ))
    (hfat : (plan.days.get ⟨d, hd⟩).dailyMacros.fats =
      (jsRound (sumFats (plan.days.get ⟨d, hd⟩)) : ℚ)) :
    |(((swapAndRecompute plan d g i y).days.get ⟨d, hd'⟩).totalCalories -
        (plan.days.get ⟨d, hd⟩).totalCalories) -
      (y.calories - x.calories)| ≤ 1 ∧
    |(((swapAndRecompute plan d g i y).days.get ⟨d, hd'⟩).dailyMacros.protein -
        (plan.days.get ⟨d, hd⟩).dailyMacros.protein) -
      (y.macros.protein - x.macros.protein)| ≤ 1 ∧
    |(((swapAndRecompute plan d g i y).days.get ⟨d, hd'⟩).dailyMacros.carbs -
        (plan.days.get ⟨d, hd⟩).dailyMacros.carbs) -
      (y.macros.carbs - x.macros.carbs)| ≤ 1 ∧
    |(((swapAndRecompute plan d g i y).days.get ⟨d, hd'⟩).dailyMacros.fats -
        (plan.days.get ⟨d, hd⟩).dailyMacros.fats) -
      (y.macros.fats - x.macros.fats)| ≤ 1 := by
  subst hx
  have hnew : (swapAndRecompute plan d g i y).days.get ⟨d, hd'⟩ =
      recomputeDay (swapItem (plan.days.get ⟨d, hd⟩) g i y) :=
    get_modifyAt_self plan.days d _ hd hd'
  refine ⟨?_, ?_, ?_, ?_⟩
  · rw [hnew, recomputeDay_totalCalories,
      sumCalories_swapItem _ g i y hg hi, hcal]
    exact jsRound_delta _ _
  · rw [hnew, recomputeDay_dailyMacros,
      sumProtein_swapItem _ g i y hg hi, hpro]
    exact jsRound_delta _ _
  · rw [hnew, recomputeDay_dailyMacros,
      sumCarbs_swapItem _ g i y hg hi, hcarb]
    exact jsRound_delta _ _
  · rw [hnew, recomputeDay_dailyMacros,
      sumFats_swapItem _ g i y hg hi, hfat]
    exact jsRound_delta _ _

/-! Sample plan used as concrete input (scenarios 4 and 5 of the spec). -/

/-- Breakfast item of scenario 4: 400 kcal, 20/40/10 g. -/
def item400 : MealItem :=
  { name := "Oatmeal bowl", description := "Breakfast", calories := 400,
    macros := ⟨20, 40, 10⟩ }

/-- Lunch item of scenario 4: 600 kcal, 30/60/15 g. -/
def item600 : MealItem :=
  { name := "Chicken rice", description := "Lunch", calories := 600,
    macros := ⟨30, 60, 15⟩ }

/-- Replacement lunch of scenario 5: 650 kcal, 35/55/20 g. -/
def item650 : MealItem :=
  { name := "Beef noodles", description := "Lunch alternative",
    calories := 650, macros := ⟨35, 55, 20⟩ }

/-- Scenario 4 day: Breakfast 400 kcal, Lunch 600 kcal, consistent totals. -/
def sampleDay1 : DayPlan :=
  { day := "Day 1",
    meals := [⟨"Breakfast", [item400]⟩, ⟨"Lunch", [item600]⟩],
    totalCalories := 1000, dailyMacros := ⟨50, 100, 25⟩ }

/-- A second day, untouched by the swap. -/
def sampleDay2 : DayPlan :=
  { day := "Day 2", meals := [⟨"Breakfast", [item400]⟩],
    totalCalories := 400, dailyMacros := ⟨20, 40, 10⟩ }

/-- A two-day plan holding the scenario data. -/
def samplePlan : NutritionPlanResponse :=
  { safeCalorieRange := "1800-2000 kcal", summary := "Sample plan",
    days := [sampleDay1, sampleDay2],
    shoppingList := [⟨"Produce", ["Oats"]⟩] }

lemma hd0 : 0 < samplePlan.days.length := by norm_num [samplePlan]

lemma hd0' : 0 < (swapAndRecompute samplePlan 0 1 0 item650).days.length := by
  rw [show (swapAndRecompute samplePlan 0 1 0 item650).days =
    modifyAt samplePlan.days 0
      (fun day => recomputeDay (swapItem day 1 0 item650)) from rfl,
    length_modifyAt]
  exact hd0

lemma sample_get0 : samplePlan.days.get ⟨0, hd0⟩ = sampleDay1 := rfl

lemma sumCal_sampleDay1 : sumCalories sampleDay1 = 1000 := by
  norm_num [sumCalories, groupCalories, sampleDay1, item400, item600]

lemma sumPro_sampleDay1 : sumProtein sampleDay1 = 50 := by
  norm_num [sumProtein, groupProtein, itemProtein, sampleDay1, item400,
    item600]

lemma sumCarb_sampleDay1 : sumCarbs sampleDay1 = 100 := by
  norm_num [sumCarbs, groupCarbs, itemCarbs, sampleDay1, item400, item600]

lemma sumFat_sampleDay1 : sumFats sampleDay1 = 25 := by
  norm_num [sumFats, groupFats, itemFats, sampleDay1, item400, item600]

/-- C4 witness: swapping the 600-kcal lunch of the scenario day for the
650-kcal alternative moves each recomputed total by the exact item delta,
within ±1. -/
theorem C4_witness :
    |(((swapAndRecompute samplePlan 0 1 0 item650).days.get
          ⟨0, hd0'⟩).totalCalories -
        (samplePlan.days.get ⟨0, hd0⟩).totalCalories) -
      (item650.calories - item600.calories)| ≤ 1 ∧
    |(((swapAndRecompute samplePlan 0 1 0 item650).days.get
          ⟨0, hd0'⟩).dailyMacros.protein -
        (samplePlan.days.get ⟨0, hd0⟩).dailyMacros.protein) -
      (item650.macros.protein - item600.macros.protein)| ≤ 1 ∧
    |(((swapAndRecompute samplePlan 0 1 0 item650).days.get
          ⟨0, hd0'⟩).dailyMacros.carbs -
        (samplePlan.days.get ⟨0, hd0⟩).dailyMacros.carbs) -
      (item650.macros.carbs - item600.macros.carbs)| ≤ 1 ∧
    |(((swapAndRecompute samplePlan 0 1 0 item650).days.get
          ⟨0, hd0'⟩).dailyMacros.fats -
        (samplePlan.days.get ⟨0, hd0⟩).dailyMacros.fats) -
      (item650.macros.fats - item600.macros.fats)| ≤ 1 := by
  apply C4_swap_delta samplePlan 0 1 0 item600 item650 hd0
    (by decide) (by decide) rfl hd0'
  · rw [sample_get0, sumCal_sampleDay1,
      show sampleDay1.totalCalories = (1000 : ℚ) from rfl,
      show ((1000 : ℚ) = ((1000 : ℤ) : ℚ)) from by norm_num, jsRound_intCast]
  · rw [sample_get0, sumPro_sampleDay1,
      show sampleDay1.dailyMacros.protein = (50 : ℚ) from rfl,
      show ((50 : ℚ) = ((50 : ℤ) : ℚ)) from by norm_num, jsRound_intCast]
  · rw [sample_get0, sumCarb_sampleDay1,
      show sampleDay1.dailyMacros.carbs = (100 : ℚ) from rfl,
      show ((100 : ℚ) = ((100 : ℤ) : ℚ)) from by norm_num, jsRound_intCast]
  · rw [sample_get0, sumFat_sampleDay1,
      show sampleDay1.dailyMacros.fats = (25 : ℚ) from rfl,
      show ((25 : ℚ) = ((25 : ℤ) : ℚ)) from by norm_num, jsRound_intCast]

/-- C8: a successful swap at in-range indices `(d, g, i)` touches only the
item at those indices and the recomputed aggregates of day `d`: the
summary, safeCalorieRange and shoppingList of the plan are unchanged, every other day
is unchanged, day `d` keeps its label and meal-group structure, every
group other than `g` is unchanged, group `g` keeps its type and length,
every item other than `i` is unchanged, and the item at `i` becomes the
replacement. -/
theorem C8_swap_frame (plan : NutritionPlanResponse) (d g i : Nat)
    (y : MealItem)
    (hd : d < plan.days.length)
    (hg : g < (plan.days.get ⟨d, hd⟩).meals.length)
    (hi : i < ((plan.days.get ⟨d, hd⟩).meals.get ⟨g, hg⟩).items.length) :
    (swapAndRecompute plan d g i y).summary = plan.summary ∧
    (swapAndRecompute plan d g i y).safeCalorieRange =
      plan.safeCalorieRange ∧
    (swapAndRecompute plan d g i y).shoppingList = plan.shoppingList ∧
    (swapAndRecompute plan d g i y).days.length = plan.days.length ∧
    (∀ (e : Nat) (h1 : e < plan.days.length)
       (h2 : e < (swapAndRecompute plan d g i y).days.length), e ≠ d →
       (swapAndRecompute plan d g i y).days.get ⟨e, h2⟩ =
         plan.days.get ⟨e, h1⟩) ∧
    (∀ h2 : d < (swapAndRecompute plan d g i y).days.length,
      ((swapAndRecompute plan d g i y).days.get ⟨d, h2⟩).day =
        (plan.days.get ⟨d, hd⟩).day ∧
      ((swapAndRecompute plan d g i y).days.get ⟨d, h2⟩).meals.length =
        (plan.days.get ⟨d, hd⟩).meals.length ∧
      (∀ (e : Nat) (h3 : e < (plan.days.get ⟨d, hd⟩).meals.length)
         (h4 : e <
           ((swapAndRecompute plan d g i y).days.get ⟨d, h2⟩).meals.length),
         e ≠ g →
         ((swapAndRecompute plan d g i y).days.get ⟨d, h2⟩).meals.get
             ⟨e, h4⟩ =
           (plan.days.get ⟨d, hd⟩).meals.get ⟨e, h3⟩) ∧
      (∀ h4 : g <
          ((swapAndRecompute plan d g i y).days.get ⟨d, h2⟩).meals.length,
        (((swapAndRecompute plan d g i y).days.get ⟨d, h2⟩).meals.get
            ⟨g, h4⟩).type =
          ((plan.days.get ⟨d, hd⟩).meals.get ⟨g, hg⟩).type ∧
        (((swapAndRecompute plan d g i y).days.get ⟨d, h2⟩).meals.get
            ⟨g, h4⟩).items.length =
          ((plan.days.get ⟨d, hd⟩).meals.get ⟨g, hg⟩).items.length ∧
        (∀ (e : Nat)
           (h5 : e <
             ((plan.days.get ⟨d, hd⟩).meals.get ⟨g, hg⟩).items.length)
           (h6 : e <
             (((swapAndRecompute plan d g i y).days.get ⟨d, h2⟩).meals.get
               ⟨g, h4⟩).items.length), e ≠ i →
           (((swapAndRecompute plan d g i y).days.get ⟨d, h2⟩).meals.get
               ⟨g, h4⟩).items.get ⟨e, h6⟩ =
             ((plan.days.get ⟨d, hd⟩).meals.get ⟨g, hg⟩).items.get
               ⟨e, h5⟩) ∧
        (∀ h6 : i <
            (((swapAndRecompute plan d g i y).days.get ⟨d, h2⟩).meals.get
              ⟨g, h4⟩).items.length,
           (((swapAndRecompute plan d g i y).days.get ⟨d, h2⟩).meals.get
               ⟨g, h4⟩).items.get ⟨i, h6⟩ = y))) := by
  refine ⟨rfl, rfl, rfl, length_modifyAt _ _ _, ?_, ?_⟩
  · intro e h1 h2 hne
    exact get_modifyAt_ne plan.days d e _ h1 h2 hne
  · intro h2
    have hnew : (swapAndRecompute plan d g i y).days.get ⟨d, h2⟩ =
        recomputeDay (swapItem (plan.days.get ⟨d, hd⟩) g i y) :=
      get_modifyAt_self plan.days d _ hd h2
    rw [hnew]
    refine ⟨rfl, length_modifyAt _ _ _, ?_, ?_⟩
    · intro e h3 h4 hne
      exact get_modifyAt_ne (plan.days.get ⟨d, hd⟩).meals g e _ h3 h4 hne
    · intro h4
      have hgrp : (recomputeDay
            (swapItem (plan.days.get ⟨d, hd⟩) g i y)).meals.get ⟨g, h4⟩ =
          { (plan.days.get ⟨d, hd⟩).meals.get ⟨g, hg⟩ with
            items := replaceAt
              ((plan.days.get ⟨d, hd⟩).meals.get ⟨g, hg⟩).items i y } :=
        get_modifyAt_self (plan.days.get ⟨d, hd⟩).meals g _ hg h4
      rw [hgrp]
      refine ⟨rfl, length_modifyAt _ _ _, ?_, ?_⟩
      · intro e h5 h6 hne
        exact get_modifyAt_ne
          ((plan.days.get ⟨d, hd⟩).meals.get ⟨g, hg⟩).items i e _ h5 h6 hne
      · intro h6
        exact get_modifyAt_self
          ((plan.days.get ⟨d, hd⟩).meals.get ⟨g, hg⟩).items i _ hi h6

lemma hd1 : 1 < samplePlan.days.length := by decide

lemma hd1' : 1 < (swapAndRecompute samplePlan 0 1 0 item650).days.length := by
  rw [show (swapAndRecompute samplePlan 0 1 0 item650).days =
    modifyAt samplePlan.days 0
      (fun day => recomputeDay (swapItem day 1 0 item650)) from rfl,
    length_modifyAt]
  exact hd1

lemma hb : 0 < (samplePlan.days.get ⟨0, hd0⟩).meals.length := by decide

lemma hb' : 0 < ((swapAndRecompute samplePlan 0 1 0
    item650).days.get ⟨0, hd0'⟩).meals.length := by decide

lemma hl' : 1 < ((swapAndRecompute samplePlan 0 1 0
    item650).days.get ⟨0, hd0'⟩).meals.length := by decide

lemma hi650 : 0 < (((swapAndRecompute samplePlan 0 1 0
    item650).days.get ⟨0, hd0'⟩).meals.get ⟨1, hl'⟩).items.length := by
  decide

/-- C8 witness: on the two-day sample plan, swapping item (0,1,0) leaves
summary, safeCalorieRange, shoppingList, day 2 and the breakfast group
unchanged, and installs the replacement at (0,1,0). -/
theorem C8_witness :
    (swapAndRecompute samplePlan 0 1 0 item650).summary =
      samplePlan.summary ∧
    (swapAndRecompute samplePlan 0 1 0 item650).safeCalorieRange =
      samplePlan.safeCalorieRange ∧
    (swapAndRecompute samplePlan 0 1 0 item650).shoppingList =
      samplePlan.shoppingList ∧
    (swapAndRecompute samplePlan 0 1 0 item650).days.get ⟨1, hd1'⟩ =
      samplePlan.days.get ⟨1, hd1⟩ ∧
    ((swapAndRecompute samplePlan 0 1 0 item650).days.get
        ⟨0, hd0'⟩).meals.get ⟨0, hb'⟩ =
      (samplePlan.days.get ⟨0, hd0⟩).meals.get ⟨0, hb⟩ ∧
    (((swapAndRecompute samplePlan 0 1 0 item650).days.get
        ⟨0, hd0'⟩).meals.get ⟨1, hl'⟩).items.get ⟨0, hi650⟩ = item650 := by
  have h := C8_swap_frame samplePlan 0 1 0 item650 hd0 (by decide) (by decide)
  refine ⟨h.1, h.2.1, h.2.2.1, ?_, ?_, ?_⟩
  · exact h.2.2.2.2.1 1 hd1 hd1' (by decide)
  · exact (h.2.2.2.2.2 hd0').2.2.1 0 hb hb' (by decide)
  · exact ((h.2.2.2.2.2 hd0').2.2.2 hl').2.2.2 hi650

/-! ## Session state (`App.tsx` lines 11-118)

The generator-relevant React state is the stored plan, the stored form
data, the loading flag and the error message.  The Gateway calls are
asynchronous; their outcome is passed to the handlers explicitly, so each
handler is the state transformer of one completed invocation. -/

/-- The `plan` / `currentFormData` / `loading` / `error` state of
`App.tsx`. -/
structure AppState where
  plan : Option NutritionPlanResponse
  currentFormData : Option UserFormData
  loading : Bool
  error : Option String
deriving DecidableEq, Repr

/-- The generic failure message of `handleFormSubmit`. -/
def generationErrorMessage : String :=
  "We encountered an issue connecting to our nutritionist AI. Please try again in a moment."

/-- Handler `handleFormSubmit` (`App.tsx` lines 55-67).  The source sets loading,
clears the error and stores the submitted form data before the `try`;
on success the Gateway result becomes the plan; on failure only the error
message is set; `finally` clears loading. -/
def handleFormSubmit (s : AppState) (data : UserFormData)
    (result : Except Unit NutritionPlanResponse) : AppState :=
  match result with
  | Except.ok p =>
      { plan := some p, currentFormData := some data, loading := false,
        error := none }
  | Except.error _ =>
      { plan := s.plan, currentFormData := some data, loading := false,
        error := some generationErrorMessage }

/-- Handler `handleSwapMeal` (`App.tsx` lines 78-118).  With no plan or no stored
form data it returns immediately; on a Gateway error the `catch` only
logs, leaving the state untouched; on success it commits the
swapped-and-recomputed plan.  An out-of-range `dayIndex` or
`mealGroupIndex` makes the index assignment in the source raise a `TypeError`
that the same `catch` swallows, so those cases also leave the state
untouched, as modelled by the `get?` guards. -/
def handleSwapMeal (s : AppState) (dayIndex mealGroupIndex itemIndex : Nat)
    (currentItem : MealItem) (mealType : String)
    (result : Except Unit MealItem) : AppState :=
  match s.plan, s.currentFormData with
  | some plan, some _ =>
      match result with
      | Except.ok newMeal =>
          match plan.days.get? dayIndex with
          | none => s
          | some day =>
              match day.meals.get? mealGroupIndex with
              | none => s
              | some _ =>
                  { s with plan := some (swapAndRecompute plan dayIndex
                      mealGroupIndex itemIndex newMeal) }
      | Except.error _ => s
  | _, _ => s

/-- C3: when the Gateway call for a replacement meal fails, the swap
handler leaves the whole state — in particular the stored plan and every
day aggregate — exactly as it was; no partial update is committed. -/
theorem C3_swap_failure_no_change (s : AppState) (d g i : Nat)
    (currentItem : MealItem) (mealType : String) (e : Unit) :
    handleSwapMeal s d g i currentItem mealType (Except.error e) = s := by
  rcases s with ⟨plan, fd, l, err⟩
  cases plan <;> cases fd <;> rfl

/-- The pre-submission state used as the concrete input for C7. -/
def stateBefore : AppState :=
  { plan := some samplePlan, currentFormData := some scenarioProfile,
    loading := false, error := none }

/-- The newly submitted profile of the concrete C7 run (age 31, differing
from the stored profile, whose age is 30). -/
def profileB : UserFormData := { scenarioProfile with age := 31 }

/-- C7 counterexample: submitting a new profile whose generation fails
leaves the plan untouched but replaces the stored profile — the source
stores the submitted form data before the `try` block — so plan and
profile are not both as they were. -/
theorem C7_counterexample :
    ¬((handleFormSubmit stateBefore profileB (Except.error ())).plan =
        stateBefore.plan ∧
      (handleFormSubmit stateBefore profileB
          (Except.error ())).currentFormData =
        stateBefore.currentFormData) := by
  intro h
  have h2 := h.2
  simp only [handleFormSubmit, stateBefore, Option.some.injEq] at h2
  have hage := congrArg UserFormData.age h2
  norm_num [profileB, scenarioProfile] at hage

/-- C7 (amended): when full-plan generation fails, no partial plan is
stored — the stored plan is exactly as before and the error message is
set — but the stored profile is replaced by the submitted form data,
which the source commits before invoking the Gateway. -/
theorem C7_generation_failure (s : AppState) (data : UserFormData)
    (e : Unit) :
    (handleFormSubmit s data (Except.error e)).plan = s.plan ∧
    (handleFormSubmit s data (Except.error e)).currentFormData =
      some data ∧
    (handleFormSubmit s data (Except.error e)).error =
      some generationErrorMessage ∧
    (handleFormSubmit s data (Except.error e)).loading = false :=
  ⟨rfl, rfl, rfl, rfl⟩

/-! ## Duration-mapping policy (`geminiService`, `generateMealPlan`)

The policy lives in the prompt construction: a requested duration above 7
selects a fixed 28-day instruction sentence, otherwise the instruction
asks for exactly the requested number of days. -/

/-- Flag `isLongDuration` from `generateMealPlan`: `data.duration > 7`. -/
def isLongDuration (duration : ℚ) : Bool := duration > 7

/-- The fixed long-branch instruction sentence of `generateMealPlan`. -/
def longDurationText : String :=
  "The user requested a 30-day plan. Generate a full 4-week plan (28 days). Label days strictly as \x27Day 1\x27 through \x27Day 28\x27."

/-- String `durationInstruction` from `generateMealPlan`. -/
def durationInstruction (duration : ℚ) : String :=
  if isLongDuration duration then longDurationText
  else "Create a " ++ toString duration ++ "-day meal plan."

/-- The day count the instruction requests: the long-branch sentence asks
for exactly 28 days, the short branch for the requested duration. -/
def instructedDayCount (duration : ℚ) : ℚ :=
  if isLongDuration duration then 28 else duration

/-- The sequential labels Day 1 .. Day 28 prescribed by the long-branch
sentence. -/
def specDayLabels : List String :=
  (List.range 28).map (fun n => "Day " ++ toString (n + 1))

/-- C9: the request construction maps any duration above 7 to the fixed
instruction requesting exactly 28 days labeled sequentially Day 1 through
Day 28, and any duration at most 7 to an instruction requesting exactly
that number of days. -/
theorem C9_duration_policy (d : ℚ) :
    (7 < d → durationInstruction d = longDurationText ∧
      instructedDayCount d = 28) ∧
    (d ≤ 7 → durationInstruction d =
        "Create a " ++ toString d ++ "-day meal plan." ∧
      instructedDayCount d = d) ∧
    specDayLabels.length = 28 ∧
    (∀ (k : Nat) (hk : k < specDayLabels.length),
      specDayLabels.get ⟨k, hk⟩ = "Day " ++ toString (k + 1)) := by
  refine ⟨fun h => ?_, fun h => ?_, rfl, fun k hk => ?_⟩
  · constructor <;> simp [durationInstruction, instructedDayCount,
      isLongDuration, h]
  · constructor <;> simp [durationInstruction, instructedDayCount,
      isLongDuration, not_lt.mpr h]
  · rw [List.get_eq_getElem]
    simp [specDayLabels]

/-- C9 witness: duration 30 selects the 28-day instruction; duration 5
requests exactly 5 days. -/
theorem C9_witness :
    durationInstruction 30 = longDurationText ∧
    instructedDayCount 30 = 28 ∧
    durationInstruction 5 =
      "Create a " ++ toString (5 : ℚ) ++ "-day meal plan." ∧
    instructedDayCount 5 = 5 := by
  have h30 := (C9_duration_policy 30).1 (by norm_num)
  have h5 := (C9_duration_policy 5).2.1 (by norm_num)
  exact ⟨h30.1, h30.2, h5.1, h5.2⟩

end NutriPlan
